import Mathlib

/-!
Verification of the Appetize control-channel client core (Action Protocol &
Session State Engine): a shallow embedding of the coordinate mapper, the
gesture path builder, the `playAction` dispatcher retry loop, the session
socket-listener lifecycle and the `waitForAnimations` reference counting,
together with theorems settling the specification claims about them.

JavaScript numbers are modelled as rationals (`ℚ`); a possibly-NaN number is
`Option ℚ` with `none` standing for NaN.  Fallible code returns `Except`.
-/

namespace Appetize

/-! ## Position parsing (`parsePositionValue`, `parseInt`) -/

/-- An input position value as it may arrive from the public API: a finite
number, the NaN number, or a string. -/
inductive PosValue
  | num (q : ℚ)
  | nan
  | str (s : String)
deriving DecidableEq, Repr

/-- Accumulate the value of a maximal run of leading decimal digits, stopping
at the first non-digit, as JavaScript `parseInt` does after the sign. -/
def parseDigitsAux (acc : Nat) : List Char → Nat
  | [] => acc
  | c :: rest => if c.isDigit then parseDigitsAux (acc * 10 + (c.toNat - 48)) rest else acc

/-- Whether the character list starts with a decimal digit (so JavaScript
`parseInt` yields a number rather than NaN). -/
def hasLeadingDigit : List Char → Bool
  | [] => false
  | c :: _ => c.isDigit

/-- JavaScript `parseInt(s, 10)`: skip leading whitespace, read an optional
sign and then the maximal run of leading digits; `none` models NaN. -/
def jsParseInt (s : String) : Option Int :=
  match s.data.dropWhile Char.isWhitespace with
  | [] => none
  | c :: rest =>
    if c = '-' then
      if hasLeadingDigit rest then some (-(parseDigitsAux 0 rest : Int)) else none
    else if c = '+' then
      if hasLeadingDigit rest then some ((parseDigitsAux 0 rest : Int)) else none
    else if hasLeadingDigit (c :: rest) then some ((parseDigitsAux 0 (c :: rest) : Int))
    else none

/-- Whether the string ends with the given character: the translation of
`value.endsWith('%')` for the one-character suffix used by the parser. -/
def endsWithChar (s : String) (c : Char) : Bool :=
  match s.data.getLast? with
  | some d => d = c
  | none => false

/-- An error raised by the mapper or parser.  `operational` records whether the
thrown object was an `OperationalError` (which sets `isOperational = true`);
a plain JavaScript `Error` carries no such flag, modelled as `false`. -/
structure MapError where
  operational : Bool
  message : String
deriving DecidableEq, Repr

/-- Rendering of a position value inside an error message (JavaScript string
interpolation). -/
def posValueStr : PosValue → String
  | .num q => toString q
  | .nan => "NaN"
  | .str s => s

/-- Translation of `parsePositionValue` (recorder util): a string ending in `%`
is parsed with `parseInt(value, 10) / 100` (NaN propagates), any other string
throws a plain `Error`, and numbers pass through. -/
def parsePositionValue : PosValue → Except MapError (Option ℚ)
  | .str s =>
    if endsWithChar s '%' then
      .ok ((jsParseInt s).map (fun n => (n : ℚ) / 100))
    else
      .error ⟨false, "Invalid position value: " ++ s ++
        ". Must be a number between 0 and 1, or a string ending with %"⟩
  | .num q => .ok (some q)
  | .nan => .ok none

/-! ## Coordinate mapper (`InternalAPIMapper` / `PublicAPIMapper`) -/

/-- Target platform of the remote device. -/
inductive Platform
  | ios
  | android
deriving DecidableEq, Repr

/-- Screen dimensions reported by the remote device; `devicePixelRatio` is
optional. -/
structure ScreenBounds where
  width : ℚ
  height : ℚ
  devicePixelRatio : Option ℚ
deriving DecidableEq, Repr

/-- The ratio actually used by the mappers: `this.screen.devicePixelRatio || 1`
in JavaScript, where an absent or zero (falsy) ratio falls back to 1. -/
def effectiveRatio (s : ScreenBounds) : ℚ :=
  match s.devicePixelRatio with
  | none => 1
  | some r => if r = 0 then 1 else r

/-- Mapper helper `dipToPixel`: multiply by the device pixel ratio. -/
def dipToPixel (s : ScreenBounds) (v : ℚ) : ℚ := v * effectiveRatio s

/-- Mapper helper `pixelToDip`: divide by the device pixel ratio. -/
def pixelToDip (s : ScreenBounds) (v : ℚ) : ℚ := v / effectiveRatio s

/-- Mapper helper `getCoordinates`: scale a parsed position by the given
bounds. -/
def getCoordinates (pos : ℚ × ℚ) (bounds : ℚ × ℚ) : ℚ × ℚ :=
  (pos.1 * bounds.1, pos.2 * bounds.2)

/-- Outbound position-to-pixel conversion: the `position` branch of
`InternalAPIMapper.mapAction`.  Android first converts the bounds from
device-independent points to pixels; both platforms subtract 1 from the
bounds before scaling. -/
def percentageToPixel (platform : Platform) (s : ScreenBounds) (p : ℚ × ℚ) : ℚ × ℚ :=
  if platform = Platform.android then
    getCoordinates p (dipToPixel s s.width - 1, dipToPixel s s.height - 1)
  else
    getCoordinates p (s.width - 1, s.height - 1)

/-- Inbound pixel-to-percentage conversion: the `coordinates` branch of
`PublicAPIMapper.mapAction` composed with `PublicAPIMapper.getPosition`.  The
pixel coordinates are first divided by the device pixel ratio (on every
platform), then normalized by `width - 1` / `height - 1`. -/
def pixelToPercentage (s : ScreenBounds) (c : ℚ × ℚ) : ℚ × ℚ :=
  (pixelToDip s c.1 / (s.width - 1), pixelToDip s c.2 / (s.height - 1))

/-- Translation of `Validator.isValidNumber` applied to a parse result: NaN is
rejected (the `typeof` check is enforced by the type). -/
def isValidNumber : Option ℚ → Bool
  | none => false
  | some _ => true

/-- Translation of `Validator.isPositionWithinBounds` on parsed axis values.
JavaScript comparisons against NaN are always false, so a NaN axis passes this
check (it is caught earlier by `isValidNumber`). -/
def isPositionWithinBounds (x y : Option ℚ) : Bool :=
  match x, y with
  | some a, some b => !(a < 0 || a > 1 || b < 0 || b > 1)
  | some a, none => !(a < 0 || a > 1)
  | none, some b => !(b < 0 || b > 1)
  | none, none => true

/-- Whether a position value is a string (drives which out-of-bounds message
the mapper throws). -/
def PosValue.isStringValue : PosValue → Bool
  | .str _ => true
  | _ => false

/-- Translation of the `position` branch of `InternalAPIMapper.mapAction`:
parse both axes (a malformed string throws a plain `Error` inside
`parsePositionValue`), reject NaN with an `OperationalError`, reject
out-of-range values with a plain `Error` (note: not an `OperationalError`),
then convert to pixel coordinates.  There is no clamping. -/
def mapActionPosition (platform : Platform) (s : ScreenBounds) (px py : PosValue) :
    Except MapError (ℚ × ℚ) :=
  match parsePositionValue px with
  | .error e => .error e
  | .ok x =>
    match parsePositionValue py with
    | .error e => .error e
    | .ok y =>
      if !(isValidNumber x && isValidNumber y) then
        .error ⟨true, "Invalid position: (" ++ posValueStr px ++ ", " ++ posValueStr py ++
          "). Values must be a number or a percentage"⟩
      else if !(isPositionWithinBounds x y) then
        .error ⟨false,
          if px.isStringValue then
            "Invalid position: (" ++ posValueStr px ++ ", " ++ posValueStr py ++
              ") must be within (0%, 0%) and (100%, 100%)"
          else
            "Invalid position: (" ++ posValueStr px ++ ", " ++ posValueStr py ++
              ") must be within (0, 0) and (1, 1)"⟩
      else
        .ok (percentageToPixel platform s (x.getD 0, y.getD 0))

/-! ## Error construction (`errors.ts`) -/

/-- Whether `pat` is a prefix of `target`, on character lists. -/
def startsWithList : List Char → List Char → Bool
  | [], _ => true
  | _ :: _, [] => false
  | p :: ps, c :: cs => p = c && startsWithList ps cs

/-- Whether `pat` occurs as a contiguous sublist of `target`. -/
def containsSubList : List Char → List Char → Bool
  | [], pat => pat.isEmpty
  | c :: rest, pat => startsWithList pat (c :: rest) || containsSubList rest pat

/-- Substring test, modelling `String.prototype.match` with a literal
pattern. -/
def strContainsSub (s pat : String) : Bool := containsSubList s.data pat.data

/-- Message selection of the `ActionInvalidArgumentError` constructor: when the
remote message mentions `outside the screen bounds`, it is replaced by a
message about the action's `localPosition` when one is present, else by a
generic out-of-bounds message; otherwise the remote message is kept. -/
def actionInvalidArgumentMessage (errMessage : String) (localPosition : Option (ℚ × ℚ)) :
    String :=
  if strContainsSub errMessage "outside the screen bounds" then
    match localPosition with
    | some (x, y) =>
      "localPosition (" ++ toString x ++ ", " ++ toString y ++
        ") for the element evaluates to a coordinate outside of screen bounds."
    | none => "Element is outside of screen bounds."
  else errMessage

/-- Translation of `formatAmbiguousElements`: matched elements are represented
by their `JSON.stringify` renderings.  At most `maxElements = 5` are listed,
each under a `// index` header, with a trailing `...and N more` note when some
were omitted. -/
def formatAmbiguousElements (elements : List String) : String :=
  let maxElements : Nat := 5
  let truncatedElements := elements.take maxElements
  let truncated : Bool := elements.length > maxElements
  let formatted := truncatedElements.enum.map
    (fun p => "// " ++ toString p.1 ++ "\n" ++ p.2)
  String.intercalate "\n\n" formatted ++
    (if truncated then "\n\n...and " ++ toString (elements.length - maxElements) ++ " more"
     else "")

/-! ## Action dispatcher (`Session.playAction`) -/

/-- Remote error identifiers carried by a `playbackError` response. -/
inductive ErrorId
  | internalError
  | notFound
  | ambiguousMatch
  | invalidArgument
  | other (s : String)
deriving DecidableEq, Repr

/-- An event arriving on the channel while an attempt is waiting: a
`playbackFoundAndSent` or `playbackError` response carrying the playback id it
answers. -/
inductive RemoteEvent
  | success (id : Nat)
  | failure (id : Nat) (e : ErrorId)
deriving DecidableEq, Repr

/-- The playback id a response correlates to. -/
def RemoteEvent.playbackId : RemoteEvent → Nat
  | .success i => i
  | .failure i _ => i

/-- Possible resolutions of one attempt's race. -/
inductive AttemptOutcome
  | success
  | remoteError (e : ErrorId)
  | hardTimeout
deriving DecidableEq, Repr

/-- The race inside one `playAction` attempt: `handleSuccess` / `handleError`
ignore any event whose `playback.id` differs from the attempt's request id, so
the first matching event decides the attempt; if no matching event arrives,
the local hard timeout fires. -/
def attemptOutcome (requestId : Nat) : List RemoteEvent → AttemptOutcome
  | [] => .hardTimeout
  | ev :: rest =>
    if ev.playbackId = requestId then
      match ev with
      | .success _ => .success
      | .failure _ e => .remoteError e
    else attemptOutcome requestId rest

/-- The errors a `playAction` call can fail with. -/
inductive ActionFailure
  | recorderRequired
  | actionTimeout
  | internalErr
  | elementNotFound
  | ambiguousElement
  | invalidArgument
  | genericError (s : String)
deriving DecidableEq, Repr

/-- Error classification of `handleError`: each remote `errorId` is wrapped in
its dedicated error class. -/
def classifyError : ErrorId → ActionFailure
  | .internalError => .internalErr
  | .notFound => .elementNotFound
  | .ambiguousMatch => .ambiguousElement
  | .invalidArgument => .invalidArgument
  | .other s => .genericError s

/-- The retry guard of `playAction`: only `ActionTimeoutError` and
`ActionInternalError` are terminal (`instanceof` checks in the catch block). -/
def terminalFailure : ActionFailure → Bool
  | .actionTimeout => true
  | .internalErr => true
  | _ => false

/-- `MAX_APP_RECORDER_TIMEOUT`: the remote executor caps one attempt at 10s. -/
def MAX_APP_RECORDER_TIMEOUT : Nat := 10000

/-- The per-attempt cap sent to the remote executor:
`Math.round(Math.min(timeout, MAX_APP_RECORDER_TIMEOUT) / 1000)` in seconds. -/
def capSecondsOf (timeout : Nat) : Nat :=
  (min timeout MAX_APP_RECORDER_TIMEOUT + 500) / 1000

/-- Observable data of one remote attempt: the freshly minted request id, the
timeout budget of the `playAction` invocation that issued it, the capped
per-attempt timeout (seconds) put in the payload, and the local hard-timeout
timer `MAX_WAIT_FOR_RESPONSE = timeout + 10000` (milliseconds). -/
structure Attempt where
  requestId : Nat
  budgetMs : Nat
  capSeconds : Nat
  hardTimeoutMs : Nat
deriving DecidableEq, Repr

/-- The retry loop of `Session.playAction` after its precondition checks.
`respond` gives, per request id, the channel events observed while that
attempt waits (uuids are modelled by consecutive fresh naturals).  Returns the
attempts that were sent and the final outcome.  On a failure the catch block
computes `remainingTimeout = max(0, timeout - 10000)` and recurses with the
reduced budget unless the failure is terminal or the budget is exhausted.
The decrement constant (always `MAX_APP_RECORDER_TIMEOUT`, see
`playActionLoop`) is passed as a parameter together with its positivity, which
carries the termination argument. -/
def playActionGo (step : Nat) (hstep : 0 < step) (respond : Nat → List RemoteEvent)
    (requestId timeout : Nat) : List Attempt × Except ActionFailure Unit :=
  let att : Attempt := ⟨requestId, timeout, capSecondsOf timeout, timeout + 10000⟩
  match attemptOutcome requestId (respond requestId) with
  | .success => ([att], .ok ())
  | .hardTimeout => ([att], .error .actionTimeout)
  | .remoteError e =>
    let f := classifyError e
    let remaining := timeout - step
    if 0 < remaining ∧ terminalFailure f = false then
      let rest := playActionGo step hstep respond (requestId + 1) remaining
      (att :: rest.1, rest.2)
    else
      ([att], .error f)
termination_by timeout
decreasing_by omega

/-- The retry loop with the decrement fixed to `MAX_APP_RECORDER_TIMEOUT`, as
in the source. -/
def playActionLoop (respond : Nat → List RemoteEvent) (requestId timeout : Nat) :
    List Attempt × Except ActionFailure Unit :=
  playActionGo MAX_APP_RECORDER_TIMEOUT (by norm_num [MAX_APP_RECORDER_TIMEOUT])
    respond requestId timeout

/-- Entry point of `Session.playAction`: the recorder must be enabled, then the
retry loop runs starting from a fresh request id. -/
def playAction (record : Bool) (respond : Nat → List RemoteEvent) (timeout : Nat) :
    List Attempt × Except ActionFailure Unit :=
  if record then playActionLoop respond 0 timeout
  else ([], .error .recorderRequired)

/-! ## Session socket listener lifecycle (`Session` constructor) -/

/-- Channel events relevant to the session state switch in
`handleSocketEvent`. -/
inductive SocketEv
  | ready
  | countdownWarning
  | timeoutReset
  | disconnectEv
  | other (s : String)
deriving DecidableEq, Repr

/-- Observable state of one `Session` instance's socket subscription:
whether `handleSocketEvent` is still attached to the channel's `*` stream,
the lifecycle flags it maintains, how many times the handler ran, and the
events it re-emitted to subscribers. -/
structure SessionListener where
  attached : Bool
  ready : Bool
  countdownWarning : Bool
  invocations : Nat
  emitted : List SocketEv
deriving DecidableEq, Repr

/-- Delivery of one channel event to a session instance.  When the handler is
detached nothing happens.  Otherwise the handler runs: it updates the
lifecycle flags per the event switch, re-emits the event, and — when the event
is the session's disconnect — the `disconnect` subscriber installed at
construction detaches the handler from the channel (`socket.off('*', ...)`). -/
def sessionStep (s : SessionListener) (e : SocketEv) : SessionListener :=
  if s.attached then
    let s1 : SessionListener :=
      { s with
        invocations := s.invocations + 1
        ready := if e = SocketEv.ready then true else s.ready
        countdownWarning :=
          if e = SocketEv.countdownWarning then true
          else if e = SocketEv.timeoutReset then false
          else s.countdownWarning
        emitted := s.emitted ++ [e] }
    if e = SocketEv.disconnectEv then { s1 with attached := false } else s1
  else s

/-- Deliver a list of channel events in arrival order. -/
def sessionRun (s : SessionListener) (evs : List SocketEv) : SessionListener :=
  evs.foldl sessionStep s

/-- A freshly constructed session: handler attached, not ready, no warning. -/
def sessionInit : SessionListener := ⟨true, false, false, 0, []⟩

/-! ## `waitForAnimations` reference counting -/

/-- The `finally` block of `waitForAnimations`: the finishing call deletes its
own promise from `_waitForAnimationsPromises` and sends
`disablePixelChangeDetection` iff the set is then empty.  Returns the new
in-flight set and whether the disable command was sent. -/
def animFinish (inflight : Finset Nat) (p : Nat) : Finset Nat × Bool :=
  let rest := inflight.erase p
  (rest, rest = ∅)

/-- The start of a `waitForAnimations` call: `enablePixelChangeDetection` is
sent and the fresh promise is added to the in-flight set. -/
def animStart (inflight : Finset Nat) (p : Nat) : Finset Nat × Bool :=
  (insert p inflight, true)

/-! ## Gesture path builder (`SwipeGesture`) -/

/-- A waypoint accumulated by the builder: a percentage-space position plus an
optional trailing pause in milliseconds. -/
structure Movement where
  x : ℚ
  y : ℚ
  wait : Option ℚ
deriving DecidableEq, Repr

/-- One interpolated output point: normalized position and elapsed seconds. -/
structure SwipeMove where
  x : ℚ
  y : ℚ
  t : ℚ
deriving DecidableEq, Repr

/-- Builder state: the waypoint list (seeded with the origin by the
constructor), the optional total duration and the step duration. -/
structure SwipeGesture where
  moves : List Movement
  duration : Option ℚ
  stepDuration : ℚ
deriving DecidableEq, Repr

/-- The `SwipeGesture` constructor: waypoints start at the origin and
`stepDuration` defaults to 16ms. -/
def SwipeGesture.create (duration : Option ℚ) (stepDuration : Option ℚ) : SwipeGesture :=
  ⟨[⟨0, 0, none⟩], duration, stepDuration.getD 16⟩

/-- `to(x, y)` with the percentage strings already parsed by `parseFloat`:
appends the waypoint `(xPct/100, yPct/100)`. -/
def SwipeGesture.toPct (g : SwipeGesture) (xPct yPct : ℚ) : SwipeGesture :=
  { g with moves := g.moves ++ [⟨xPct / 100, yPct / 100, none⟩] }

/-- `wait(duration)`: adds the pause onto the last waypoint (accumulating with
any pause already present). -/
def SwipeGesture.waitMs (g : SwipeGesture) (d : ℚ) : SwipeGesture :=
  match g.moves.getLast? with
  | none => g
  | some last =>
    { g with moves := g.moves.dropLast ++ [{ last with wait := some (d + (last.wait.getD 0)) }] }

/-- JavaScript truthiness of an optional wait value (`lowerCoord.wait`):
absent or zero is falsy. -/
def jsTruthy : Option ℚ → Bool
  | none => false
  | some w => w ≠ 0

/-- The step indices `0, 1, …, stepsPerSegment` of the inner `for` loop (empty
when `stepsPerSegment` is negative, as the loop condition fails at once). -/
def stepList (sps : Int) : List Nat :=
  if sps < 0 then [] else List.range (sps.toNat + 1)

/-- Inner loop of `build()` over one segment: for each step index, skip the
last step of a non-final segment, interpolate linearly between the two
waypoints, stamp the time from the global step counter plus the accrued wait
time, and duplicate the first point of the segment (with an advanced stamp,
accruing the pause) when the lower waypoint carries a truthy wait. -/
def segSteps (stepDuration : ℚ) (sps : Int) (i : Nat) (isLastPair : Bool)
    (lower upper : Movement) : List Nat → ℚ → List SwipeMove × ℚ
  | [], accrued => ([], accrued)
  | step :: rest, accrued =>
    if isLastPair = false ∧ (step : Int) = sps then
      segSteps stepDuration sps i isLastPair lower upper rest accrued
    else
      let progress : ℚ := (step : ℚ) / (sps : ℚ)
      let ix := lower.x + progress * (upper.x - lower.x)
      let iy := lower.y + progress * (upper.y - lower.y)
      let t : ℚ := (((i : ℚ) * (sps : ℚ) + (step : ℚ)) * stepDuration + accrued) / 1000
      if step = 0 ∧ jsTruthy lower.wait then
        let w := lower.wait.getD 0
        let r := segSteps stepDuration sps i isLastPair lower upper rest (accrued + w)
        (⟨ix, iy, t⟩ :: ⟨ix, iy, t + w / 1000⟩ :: r.1, r.2)
      else
        let r := segSteps stepDuration sps i isLastPair lower upper rest accrued
        (⟨ix, iy, t⟩ :: r.1, r.2)

/-- Outer loop of `build()` over the consecutive waypoint pairs (paired with
their index).  After the final segment, a truthy wait on the final waypoint
duplicates the last produced point with an advanced stamp (the source reads
`result[result.length - 1]`, which exists whenever any step was produced). -/
def buildSegs (stepDuration : ℚ) (sps : Int) (lastIdx : Nat) :
    List (Nat × Movement × Movement) → ℚ → List SwipeMove → List SwipeMove
  | [], _, result => result
  | (i, lower, upper) :: rest, accrued, result =>
    let isLast := i = lastIdx
    let seg := segSteps stepDuration sps i isLast lower upper (stepList sps) accrued
    let result1 := result ++ seg.1
    let result2 :=
      if isLast ∧ jsTruthy upper.wait then
        match result1.getLast? with
        | some last => result1 ++ [⟨last.x, last.y, last.t + (upper.wait.getD 0) / 1000⟩]
        | none => result1
      else result1
    buildSegs stepDuration sps lastIdx rest seg.2 result2

/-- The error message thrown by `build()` when the steps per segment come out
to zero, naming the minimum required duration `segments × stepDuration`. -/
def swipeDurationError (segments : Nat) (stepDuration : ℚ) : String :=
  "Duration is too short for " ++ toString segments ++
    " moves, please set duration to at least " ++ toString ((segments : ℚ) * stepDuration) ++ "ms"

/-- Translation of `SwipeGesture.build()`.  The total duration defaults to
`max(500, stepDuration × segmentCount)`; `totalSteps = ⌊duration /
stepDuration⌋` is divided evenly among the segments, and a zero
steps-per-segment aborts with an error naming the minimum required duration.
With a single waypoint (zero segments) the JavaScript division by zero makes
`stepsPerSegment` infinite, no error fires and the loops run zero times, so
the result is empty. -/
def SwipeGesture.build (g : SwipeGesture) : Except String (List SwipeMove) :=
  let stepDuration := g.stepDuration
  let duration := g.duration.getD (max 500 (stepDuration * ((g.moves.length : ℚ) - 1)))
  if g.moves.length ≤ 1 then .ok []
  else
    let segCount : Nat := g.moves.length - 1
    let totalSteps : Int := ⌊duration / stepDuration⌋
    let stepsPerSegment : Int := ⌊(totalSteps : ℚ) / (segCount : ℚ)⌋
    if stepsPerSegment = 0 then .error (swipeDurationError segCount stepDuration)
    else
      let pairs := ((g.moves.zip g.moves.tail).enum.map (fun p => (p.1, p.2.1, p.2.2)))
      .ok (buildSegs stepDuration stepsPerSegment (g.moves.length - 2) pairs 0 [])

/-- The timestamps of a move list are monotonically non-decreasing. -/
def tMonotone (ms : List SwipeMove) : Prop :=
  List.Chain' (fun a b => a.t ≤ b.t) ms

/-- The gesture of the two-waypoint scenario: default construction (origin
waypoint, no duration, default 16ms step) followed by `to('100%', '0%')`. -/
def swipeDefaultGesture : SwipeGesture := (SwipeGesture.create none none).toPct 100 0

/-- The move list `build()` produces for `swipeDefaultGesture`: 32 points
(steps 0..31 of the single segment), at times `k·16ms`. -/
def swipeDefaultExpected : List SwipeMove :=
  (List.range 32).map (fun k : ℕ => ⟨(k : ℚ) / 31, 0, 16 * (k : ℚ) / 1000⟩)

/-! ## Dispatcher unfolding lemmas -/

theorem playActionLoop_outcome_success {respond : Nat → List RemoteEvent} {id : Nat} (t : Nat)
    (h : attemptOutcome id (respond id) = .success) :
    playActionLoop respond id t = ([⟨id, t, capSecondsOf t, t + 10000⟩], .ok ()) := by
  rw [playActionLoop, playActionGo]
  simp [h]

theorem playActionLoop_outcome_hardTimeout {respond : Nat → List RemoteEvent} {id : Nat} (t : Nat)
    (h : attemptOutcome id (respond id) = .hardTimeout) :
    playActionLoop respond id t =
      ([⟨id, t, capSecondsOf t, t + 10000⟩], .error .actionTimeout) := by
  rw [playActionLoop, playActionGo]
  simp [h]

theorem playActionLoop_outcome_error_stop {respond : Nat → List RemoteEvent} {id : Nat}
    {e : ErrorId} (t : Nat) (h : attemptOutcome id (respond id) = .remoteError e)
    (hstop : t ≤ 10000 ∨ terminalFailure (classifyError e) = true) :
    playActionLoop respond id t =
      ([⟨id, t, capSecondsOf t, t + 10000⟩], .error (classifyError e)) := by
  rw [playActionLoop, playActionGo]
  simp only [h]
  rw [if_neg]
  rintro ⟨hr, hterm⟩
  rcases hstop with h1 | h1
  · simp [MAX_APP_RECORDER_TIMEOUT] at hr
    omega
  · rw [h1] at hterm
    simp at hterm

theorem playActionLoop_outcome_error_retry {respond : Nat → List RemoteEvent} {id : Nat}
    {e : ErrorId} (t : Nat) (h : attemptOutcome id (respond id) = .remoteError e)
    (hbudget : 10000 < t) (hterm : terminalFailure (classifyError e) = false) :
    playActionLoop respond id t =
      (⟨id, t, capSecondsOf t, t + 10000⟩ :: (playActionLoop respond (id + 1) (t - 10000)).1,
        (playActionLoop respond (id + 1) (t - 10000)).2) := by
  rw [playActionLoop, playActionGo]
  simp only [h]
  rw [if_pos]
  · simp [MAX_APP_RECORDER_TIMEOUT, playActionLoop]
  · exact ⟨by simp [MAX_APP_RECORDER_TIMEOUT]; omega, hterm⟩

/-! ## C1: attempt schedule of `playAction` with a 25s timeout -/

/-- C1.  `playAction` with `timeout = 25000` sends at most 3 remote attempts;
the attempts it does send carry fresh consecutive request ids, the decremented
budgets 25000/15000/5000 and the per-attempt caps 10s/10s/5s; and when the
first two attempts fail retryably and the third (last) attempt resolves to a
`notFound` error response, the whole call fails with the element-not-found
error rather than swallowing it. -/
theorem playAction_timeout25000_attempt_schedule (respond : Nat → List RemoteEvent) :
    ((playAction true respond 25000).1 =
      [⟨0, 25000, 10, 35000⟩, ⟨1, 15000, 10, 25000⟩,
        ⟨2, 5000, 5, 15000⟩].take (playAction true respond 25000).1.length) ∧
    (playAction true respond 25000).1.length ≤ 3 ∧
    (∀ e0 e1, attemptOutcome 0 (respond 0) = .remoteError e0 →
      terminalFailure (classifyError e0) = false →
      attemptOutcome 1 (respond 1) = .remoteError e1 →
      terminalFailure (classifyError e1) = false →
      attemptOutcome 2 (respond 2) = .remoteError .notFound →
      playAction true respond 25000 =
        ([⟨0, 25000, 10, 35000⟩, ⟨1, 15000, 10, 25000⟩, ⟨2, 5000, 5, 15000⟩],
          .error .elementNotFound)) := by
  have hp : playAction true respond 25000 = playActionLoop respond 0 25000 := by
    simp [playAction]
  rw [hp]
  rcases h0 : attemptOutcome 0 (respond 0) with _ | e0 | _
  · -- attempt 0 succeeds
    have r0 := playActionLoop_outcome_success 25000 h0
    norm_num [capSecondsOf, MAX_APP_RECORDER_TIMEOUT] at r0
    rw [r0]
    exact ⟨by simp, by simp, fun f0 f1 h0' _ _ _ _ => by cases h0'⟩
  · by_cases hterm0 : terminalFailure (classifyError e0) = true
    · -- attempt 0 fails terminally
      have r0 := playActionLoop_outcome_error_stop 25000 h0 (Or.inr hterm0)
      norm_num [capSecondsOf, MAX_APP_RECORDER_TIMEOUT] at r0
      rw [r0]
      refine ⟨by simp, by simp, ?_⟩
      intro f0 f1 h0' hterm0' _ _ _
      injection h0' with hf
      rw [← hf] at hterm0'
      rw [hterm0'] at hterm0
      simp at hterm0
    · simp only [Bool.not_eq_true] at hterm0
      have r0retry := playActionLoop_outcome_error_retry 25000 h0
        (by norm_num) hterm0
      norm_num [capSecondsOf, MAX_APP_RECORDER_TIMEOUT] at r0retry
      rcases h1 : attemptOutcome 1 (respond 1) with _ | e1 | _
      · -- attempt 1 succeeds
        have r1 := playActionLoop_outcome_success 15000 h1
        norm_num [capSecondsOf, MAX_APP_RECORDER_TIMEOUT] at r1
        rw [r1] at r0retry
        simp only [] at r0retry
        rw [r0retry]
        exact ⟨by simp, by simp, fun f0 f1 _ _ h1' _ _ => by cases h1'⟩
      · by_cases hterm1 : terminalFailure (classifyError e1) = true
        · -- attempt 1 fails terminally
          have r1 := playActionLoop_outcome_error_stop 15000 h1
            (Or.inr hterm1)
          norm_num [capSecondsOf, MAX_APP_RECORDER_TIMEOUT] at r1
          rw [r1] at r0retry
          simp only [] at r0retry
          rw [r0retry]
          refine ⟨by simp, by simp, ?_⟩
          intro f0 f1 _ _ h1' hterm1' _
          injection h1' with hf
          rw [← hf] at hterm1'
          rw [hterm1'] at hterm1
          simp at hterm1
        · simp only [Bool.not_eq_true] at hterm1
          have r1retry := playActionLoop_outcome_error_retry 15000 h1
            (by norm_num) hterm1
          norm_num [capSecondsOf, MAX_APP_RECORDER_TIMEOUT] at r1retry
          rw [r1retry] at r0retry
          rcases h2 : attemptOutcome 2 (respond 2) with _ | e2 | _
          · -- attempt 2 succeeds
            have r2 := playActionLoop_outcome_success 5000 h2
            norm_num [capSecondsOf, MAX_APP_RECORDER_TIMEOUT] at r2
            rw [r2] at r0retry
            simp only [] at r0retry
            rw [r0retry]
            exact ⟨by simp, by simp, fun f0 f1 _ _ _ _ h2' => by cases h2'⟩
          · -- attempt 2 fails with a remote error: budget exhausted, error surfaces
            have r2 := playActionLoop_outcome_error_stop 5000 h2
              (Or.inl (by norm_num))
            norm_num [capSecondsOf, MAX_APP_RECORDER_TIMEOUT] at r2
            rw [r2] at r0retry
            simp only [] at r0retry
            rw [r0retry]
            refine ⟨by simp, by simp, ?_⟩
            intro f0 f1 _ _ _ _ h2'
            injection h2' with hf
            rw [hf]
            simp [classifyError]
          · -- attempt 2 hits the hard timeout
            have r2 := playActionLoop_outcome_hardTimeout 5000 h2
            norm_num [capSecondsOf, MAX_APP_RECORDER_TIMEOUT] at r2
            rw [r2] at r0retry
            simp only [] at r0retry
            rw [r0retry]
            exact ⟨by simp, by simp, fun f0 f1 _ _ _ _ h2' => by cases h2'⟩
      · -- attempt 1 hits the hard timeout
        have r1 := playActionLoop_outcome_hardTimeout 15000 h1
        norm_num [capSecondsOf, MAX_APP_RECORDER_TIMEOUT] at r1
        rw [r1] at r0retry
        simp only [] at r0retry
        rw [r0retry]
        exact ⟨by simp, by simp, fun f0 f1 _ _ h1' _ _ => by cases h1'⟩
  · -- attempt 0 hits the hard timeout
    have r0 := playActionLoop_outcome_hardTimeout 25000 h0
    norm_num [capSecondsOf, MAX_APP_RECORDER_TIMEOUT] at r0
    rw [r0]
    exact ⟨by simp, by simp, fun f0 f1 h0' _ _ _ _ => by cases h0'⟩

/-- Witness for C1: with every attempt answered by a `notFound` error, the
25s call makes exactly the three scheduled attempts and surfaces the
element-not-found error. -/
theorem playAction_timeout25000_attempt_schedule_witness :
    playAction true (fun k => [RemoteEvent.failure k ErrorId.notFound]) 25000 =
      ([⟨0, 25000, 10, 35000⟩, ⟨1, 15000, 10, 25000⟩, ⟨2, 5000, 5, 15000⟩],
        .error .elementNotFound) ∧
    (playAction true (fun k => [RemoteEvent.failure k ErrorId.notFound]) 25000).1.length ≤ 3 := by
  have h := playAction_timeout25000_attempt_schedule
    (fun k => [RemoteEvent.failure k ErrorId.notFound])
  exact ⟨h.2.2 .notFound .notFound (by decide) (by decide) (by decide) (by decide) (by decide),
    h.2.1⟩

/-! ## C2: `invalidArgument` handling -/

/-- Counterexample for C2: a remote `invalidArgument` error response is NOT
terminal when budget remains.  With a 25s timeout, an `invalidArgument` answer
to the first attempt is retried (a second attempt is sent), and the call can
even succeed, contradicting the claim that the call fails immediately with the
invalid-argument error and is never retried. -/
theorem playAction_invalidArgument_retried_counterexample :
    playAction true
        (fun k => if k = 0 then [RemoteEvent.failure 0 ErrorId.invalidArgument]
          else [RemoteEvent.success k]) 25000 =
      ([⟨0, 25000, 10, 35000⟩, ⟨1, 15000, 10, 25000⟩], .ok ()) ∧
    (playAction true
        (fun k => if k = 0 then [RemoteEvent.failure 0 ErrorId.invalidArgument]
          else [RemoteEvent.success k]) 25000).2 ≠ .error .invalidArgument := by
  have r1 := @playActionLoop_outcome_success
    (fun k => if k = 0 then [RemoteEvent.failure 0 ErrorId.invalidArgument]
      else [RemoteEvent.success k]) 1 15000 (by decide)
  have r0 := @playActionLoop_outcome_error_retry
    (fun k => if k = 0 then [RemoteEvent.failure 0 ErrorId.invalidArgument]
      else [RemoteEvent.success k]) 0 ErrorId.invalidArgument 25000
    (by decide) (by norm_num) (by decide)
  norm_num [capSecondsOf, MAX_APP_RECORDER_TIMEOUT] at r0 r1
  rw [r1] at r0
  simp only [] at r0
  constructor
  · simpa [playAction] using r0
  · simp [playAction, r0]

/-- C2 as amended.  A remote `invalidArgument` error response is mapped to the
invalid-argument error with the special-cased out-of-bounds message, but it is
terminal only when no retry budget remains (`timeout ≤ 10000`); with remaining
budget the call recurses like any other non-timeout, non-internal failure. -/
theorem playAction_invalidArgument_budget_dependent :
    (∀ (respond : Nat → List RemoteEvent) (id t : Nat),
      attemptOutcome id (respond id) = .remoteError .invalidArgument →
      (t ≤ 10000 →
        playActionLoop respond id t =
          ([⟨id, t, capSecondsOf t, t + 10000⟩], .error .invalidArgument)) ∧
      (10000 < t →
        playActionLoop respond id t =
          (⟨id, t, capSecondsOf t, t + 10000⟩ :: (playActionLoop respond (id + 1) (t - 10000)).1,
            (playActionLoop respond (id + 1) (t - 10000)).2))) ∧
    (∀ (m : String) (x y : ℚ), strContainsSub m "outside the screen bounds" = true →
      actionInvalidArgumentMessage m (some (x, y)) =
        "localPosition (" ++ toString x ++ ", " ++ toString y ++
          ") for the element evaluates to a coordinate outside of screen bounds.") ∧
    (∀ m : String, strContainsSub m "outside the screen bounds" = true →
      actionInvalidArgumentMessage m none = "Element is outside of screen bounds.") ∧
    (∀ (m : String) (lp : Option (ℚ × ℚ)),
      strContainsSub m "outside the screen bounds" = false →
      actionInvalidArgumentMessage m lp = m) := by
  refine ⟨?_, ?_, ?_, ?_⟩
  · intro respond id t h
    constructor
    · intro hle
      have r := playActionLoop_outcome_error_stop t h (Or.inl hle)
      simpa [classifyError] using r
    · intro hlt
      have r := playActionLoop_outcome_error_retry t h hlt (by decide)
      exact r
  · intro m x y h
    simp [actionInvalidArgumentMessage, h]
  · intro m h
    simp [actionInvalidArgumentMessage, h]
  · intro m lp h
    simp [actionInvalidArgumentMessage, h]

/-- Witness for the amended C2: with a 5s budget (no retry room) an
`invalidArgument` answer is terminal, and the special-cased message fires on a
concrete remote message mentioning the screen bounds. -/
theorem playAction_invalidArgument_budget_dependent_witness :
    (playActionLoop (fun k => [RemoteEvent.failure k ErrorId.invalidArgument]) 0 5000).2 =
      .error .invalidArgument ∧
    actionInvalidArgumentMessage
      "tap evaluates to a coordinate outside the screen bounds" none =
      "Element is outside of screen bounds." := by
  have h := playAction_invalidArgument_budget_dependent
  constructor
  · rw [(h.1 (fun k => [RemoteEvent.failure k ErrorId.invalidArgument]) 0 5000
      (by decide)).1 (by norm_num)]
  · exact h.2.2.1 _ (by decide)

/-! ## C6: the per-attempt race and the hard-timeout timer -/

/-- Every attempt recorded by the retry loop has its hard-timeout timer set to
its own invocation budget plus 10000ms, and its payload cap derived from that
budget. -/
theorem playActionLoop_attempt_fields (respond : Nat → List RemoteEvent) (id t : Nat) :
    ∀ a ∈ (playActionLoop respond id t).1,
      a.hardTimeoutMs = a.budgetMs + 10000 ∧ a.capSeconds = capSecondsOf a.budgetMs := by
  induction t using Nat.strong_induction_on generalizing id with
  | _ t ih =>
    intro a ha
    rcases h0 : attemptOutcome id (respond id) with _ | e | _
    · rw [playActionLoop_outcome_success t h0] at ha
      simp at ha
      simp [ha]
    · by_cases hb : 10000 < t ∧ terminalFailure (classifyError e) = false
      · rw [playActionLoop_outcome_error_retry t h0 hb.1 hb.2] at ha
        simp at ha
        rcases ha with ha | ha
        · simp [ha]
        · exact ih (t - 10000) (by omega) (id + 1) a ha
      · have hstop : t ≤ 10000 ∨ terminalFailure (classifyError e) = true := by
          by_cases hbt : 10000 < t
          · right
            cases hf : terminalFailure (classifyError e)
            · exact absurd ⟨hbt, hf⟩ hb
            · rfl
          · left
            omega
        rw [playActionLoop_outcome_error_stop t h0 hstop] at ha
        simp at ha
        simp [ha]
    · rw [playActionLoop_outcome_hardTimeout t h0] at ha
      simp at ha
      simp [ha]

/-- Counterexample for C6: with a 25s call whose first attempt never receives
a matching response, the hard timeout fires with the timer set to
`timeout + 10000 = 35000` ms, not to the attempt's 10s cap plus 10000ms
(20000 ms) as claimed. -/
theorem playAction_hard_timeout_timer_counterexample :
    playAction true (fun _ => []) 25000 =
      ([⟨0, 25000, 10, 35000⟩], .error .actionTimeout) ∧
    (35000 : Nat) ≠ 10 * 1000 + 10000 := by
  constructor
  · have r0 := @playActionLoop_outcome_hardTimeout
      (fun _ => ([] : List RemoteEvent)) 0 25000 (by decide)
    norm_num [capSecondsOf, MAX_APP_RECORDER_TIMEOUT] at r0
    simpa [playAction] using r0
  · decide

/-- C6 as amended.  Each attempt races a matching success event, a matching
error event and the local hard timeout: responses whose playback id differs
from the attempt's request id are ignored, a matching response decides the
attempt, and with no matching response the attempt fails as a timeout (never
retried).  The hard-timeout timer of every attempt equals that invocation's
remaining budget plus 10000ms (which coincides with `cap + 10000` only when
the budget is at most 10s). -/
theorem playAction_attempt_race_and_hard_timeout :
    (∀ (respond : Nat → List RemoteEvent) (id t : Nat),
      ∀ a ∈ (playActionLoop respond id t).1,
        a.hardTimeoutMs = a.budgetMs + 10000 ∧ a.capSeconds = capSecondsOf a.budgetMs) ∧
    (∀ (respond : Nat → List RemoteEvent) (id t : Nat),
      attemptOutcome id (respond id) = .hardTimeout →
      playActionLoop respond id t =
        ([⟨id, t, capSecondsOf t, t + 10000⟩], .error .actionTimeout)) ∧
    (∀ (id : Nat) (ev : RemoteEvent) (evs : List RemoteEvent), ev.playbackId ≠ id →
      attemptOutcome id (ev :: evs) = attemptOutcome id evs) ∧
    (∀ (id : Nat) (evs : List RemoteEvent),
      attemptOutcome id (RemoteEvent.success id :: evs) = .success) ∧
    (∀ (id : Nat) (evs : List RemoteEvent) (e : ErrorId),
      attemptOutcome id (RemoteEvent.failure id e :: evs) = .remoteError e) ∧
    (∀ id : Nat, attemptOutcome id [] = .hardTimeout) := by
  refine ⟨playActionLoop_attempt_fields, fun respond id t h =>
    playActionLoop_outcome_hardTimeout t h, ?_, ?_, ?_, ?_⟩
  · intro id ev evs h
    simp [attemptOutcome, h]
  · intro id evs
    simp [attemptOutcome, RemoteEvent.playbackId]
  · intro id evs e
    simp [attemptOutcome, RemoteEvent.playbackId]
  · intro id
    simp [attemptOutcome]

/-- Witness for the amended C6: the timer facts at a concrete silent channel,
and the request-id correlation at a concrete stale response. -/
theorem playAction_attempt_race_and_hard_timeout_witness :
    playActionLoop (fun _ => []) 0 25000 =
      ([⟨0, 25000, capSecondsOf 25000, 35000⟩], .error .actionTimeout) ∧
    attemptOutcome 0 [RemoteEvent.success 1] = .hardTimeout := by
  have h := playAction_attempt_race_and_hard_timeout
  constructor
  · have r := h.2.1 (fun _ => []) 0 25000 (by decide)
    simpa using r
  · have r := h.2.2.1 0 (RemoteEvent.success 1) [] (by decide)
    rw [r]
    exact h.2.2.2.2.2 0

/-! ## C4: stale-instance isolation after disconnect -/

/-- A detached session listener ignores every delivered event. -/
theorem sessionStep_detached {s : SessionListener} (h : s.attached = false) (e : SocketEv) :
    sessionStep s e = s := by
  simp [sessionStep, h]

/-- A detached session listener ignores every delivered event list. -/
theorem sessionRun_detached {s : SessionListener} (h : s.attached = false)
    (evs : List SocketEv) : sessionRun s evs = s := by
  induction evs with
  | nil => rfl
  | cons e rest ih =>
    rw [sessionRun, List.foldl_cons, sessionStep_detached h]
    exact ih

/-- Delivering the disconnect event leaves the listener detached. -/
theorem sessionStep_disconnect_detaches (s : SessionListener) :
    (sessionStep s .disconnectEv).attached = false := by
  cases h : s.attached
  · simp [sessionStep, h]
  · simp [sessionStep, h]

/-- C4.  Once a session instance has observed its disconnect event, every
event subsequently delivered on the (possibly reused) channel is invisible to
it: the whole observable state — the lifecycle flags, the handler invocation
count and the list of re-emitted events — is exactly what it was at the
disconnect, for any prehistory and any subsequent traffic. -/
theorem session_stale_after_disconnect (pre post : List SocketEv) :
    sessionRun sessionInit (pre ++ SocketEv.disconnectEv :: post) =
      sessionRun sessionInit (pre ++ [SocketEv.disconnectEv]) := by
  have hsplit : pre ++ SocketEv.disconnectEv :: post =
      (pre ++ [SocketEv.disconnectEv]) ++ post := by
    simp
  rw [hsplit]
  have hfold : sessionRun sessionInit ((pre ++ [SocketEv.disconnectEv]) ++ post) =
      sessionRun (sessionRun sessionInit (pre ++ [SocketEv.disconnectEv])) post := by
    simp [sessionRun, List.foldl_append]
  rw [hfold]
  apply sessionRun_detached
  have : sessionRun sessionInit (pre ++ [SocketEv.disconnectEv]) =
      sessionStep (sessionRun sessionInit pre) SocketEv.disconnectEv := by
    simp [sessionRun, List.foldl_append]
  rw [this]
  exact sessionStep_disconnect_detaches _

/-! ## C9: `waitForAnimations` reference counting -/

/-- C9.  The `disablePixelChangeDetection` command is sent by a finishing
`waitForAnimations` call exactly when removing its own promise leaves the
in-flight set empty; a finishing call removes exactly its own promise (every
other in-flight promise survives), and while any other promise is still in
flight the disable command is not sent. -/
theorem waitForAnimations_refcount :
    (∀ (inflight : Finset Nat) (p : Nat),
      ((animFinish inflight p).2 = true ↔ inflight.erase p = ∅)) ∧
    (∀ (inflight : Finset Nat) (p : Nat),
      (animFinish inflight p).1 = inflight.erase p ∧ p ∉ (animFinish inflight p).1) ∧
    (∀ (inflight : Finset Nat) (p q : Nat), q ∈ inflight → q ≠ p →
      q ∈ (animFinish inflight p).1 ∧ (animFinish inflight p).2 = false) ∧
    (∀ (inflight : Finset Nat) (p : Nat),
      (animStart inflight p).1 = insert p inflight ∧ (animStart inflight p).2 = true) := by
  refine ⟨?_, ?_, ?_, ?_⟩
  · intro inflight p
    simp [animFinish]
  · intro inflight p
    exact ⟨rfl, by simp [animFinish]⟩
  · intro inflight p q hq hne
    have hmem : q ∈ inflight.erase p := Finset.mem_erase.mpr ⟨hne, hq⟩
    refine ⟨hmem, ?_⟩
    have hne' : inflight.erase p ≠ ∅ := by
      intro hcontra
      rw [hcontra] at hmem
      exact absurd hmem (Finset.not_mem_empty q)
    simp [animFinish, hne']
  · intro inflight p
    exact ⟨rfl, rfl⟩

/-- Witness for C9: with promises `{1, 2}` in flight, promise 1 finishing does
not disable detection and removes only itself; promise 2 finishing alone does
disable it. -/
theorem waitForAnimations_refcount_witness :
    2 ∈ (animFinish {1, 2} 1).1 ∧ (animFinish {1, 2} 1).2 = false ∧
    (animFinish {2} 2).2 = true := by
  have h := waitForAnimations_refcount
  have h12 := h.2.2.1 {1, 2} 1 2 (by decide) (by decide)
  refine ⟨h12.1, h12.2, ?_⟩
  exact (h.1 {2} 2).mpr (by decide)

/-! ## C7: `ambiguousMatch` message formatting -/

/-- C7.  With 7 matched elements the ambiguous-match message enumerates
exactly the first 5, indexed `// 0` to `// 4`, and ends with `...and 2 more`;
in general, when more than 5 elements match, exactly the first 5 are listed
followed by a suffix naming the omitted count, and with at most 5 matches all
of them are listed with no suffix. -/
theorem ambiguousMatch_message_truncation :
    formatAmbiguousElements ["E0", "E1", "E2", "E3", "E4", "E5", "E6"] =
      "// 0\nE0\n\n// 1\nE1\n\n// 2\nE2\n\n// 3\nE3\n\n// 4\nE4\n\n...and 2 more" ∧
    (∀ es : List String, 5 < es.length →
      formatAmbiguousElements es =
        String.intercalate "\n\n"
          ((es.take 5).enum.map (fun p => "// " ++ toString p.1 ++ "\n" ++ p.2)) ++
          ("\n\n...and " ++ toString (es.length - 5) ++ " more")) ∧
    (∀ es : List String, es.length ≤ 5 →
      formatAmbiguousElements es =
        String.intercalate "\n\n"
          (es.enum.map (fun p => "// " ++ toString p.1 ++ "\n" ++ p.2))) := by
  refine ⟨by rfl, ?_, ?_⟩
  · intro es h
    simp [formatAmbiguousElements, h]
  · intro es h
    have hnot : ¬(5 : Nat) < es.length := by omega
    simp [formatAmbiguousElements, hnot, List.take_of_length_le h]

/-- Witness for C7: the general parts instantiated at a 7-element and a
1-element list. -/
theorem ambiguousMatch_message_truncation_witness :
    formatAmbiguousElements ["E0", "E1", "E2", "E3", "E4", "E5", "E6"] =
      String.intercalate "\n\n"
        ((["E0", "E1", "E2", "E3", "E4", "E5", "E6"].take 5).enum.map
          (fun p => "// " ++ toString p.1 ++ "\n" ++ p.2)) ++
        ("\n\n...and " ++ toString ((["E0", "E1", "E2", "E3", "E4", "E5", "E6"] :
          List String).length - 5) ++ " more") ∧
    formatAmbiguousElements ["A"] =
      String.intercalate "\n\n"
        ((["A"] : List String).enum.map (fun p => "// " ++ toString p.1 ++ "\n" ++ p.2)) := by
  have h := ambiguousMatch_message_truncation
  exact ⟨h.2.1 _ (by decide), h.2.2 ["A"] (by decide)⟩

/-! ## C10: percentage-string parsing semantics -/

/-- C10.  A percentage string is parsed as `parseInt(value, 10) / 100`, so
`"12.75%"` yields `0.12` and the fractional digits are discarded (`parseInt`
stops at the decimal point: `"12." ++ anything` parses as 12); every string
not ending in `%` is rejected with an error instead of being parsed. -/
theorem parsePositionValue_percent_semantics :
    parsePositionValue (.str "12.75%") = .ok (some (12 / 100)) ∧
    (∀ s : String, endsWithChar s '%' = true →
      parsePositionValue (.str s) = .ok ((jsParseInt s).map (fun n => (n : ℚ) / 100))) ∧
    (∀ s : String, endsWithChar s '%' = false →
      parsePositionValue (.str s) =
        .error ⟨false, "Invalid position value: " ++ s ++
          ". Must be a number between 0 and 1, or a string ending with %"⟩) ∧
    (∀ frac : List Char, jsParseInt (String.mk ('1' :: '2' :: '.' :: frac)) = some 12) := by
  refine ⟨?_, ?_, ?_, ?_⟩
  · have h1 : endsWithChar "12.75%" '%' = true := by decide
    have h2 : jsParseInt "12.75%" = some 12 := by decide
    simp [parsePositionValue, h1, h2]
  · intro s h
    simp [parsePositionValue, h]
  · intro s h
    simp [parsePositionValue, h]
  · intro frac
    rw [jsParseInt]
    simp [List.dropWhile_cons, hasLeadingDigit, parseDigitsAux]

/-- Witness for C10: the general parts instantiated at `"50%"`, at the
rejected non-percentage string `"0.5"`, and at the truncated `"12.75%"`
character list. -/
theorem parsePositionValue_percent_semantics_witness :
    parsePositionValue (.str "50%") = .ok ((jsParseInt "50%").map (fun n => (n : ℚ) / 100)) ∧
    parsePositionValue (.str "0.5") =
      .error ⟨false, "Invalid position value: " ++ "0.5" ++
        ". Must be a number between 0 and 1, or a string ending with %"⟩ ∧
    jsParseInt (String.mk ('1' :: '2' :: '.' :: ['7', '5', '%'])) = some 12 := by
  have h := parsePositionValue_percent_semantics
  exact ⟨h.2.1 "50%" (by decide), h.2.2.1 "0.5" (by decide), h.2.2.2 ['7', '5', '%']⟩

/-! ## C3: percentage/pixel round trip -/

/-- Counterexample for C3: with `devicePixelRatio = 2` the round trip is far
from the identity.  On iOS with a 101×101 screen, the corner position `(1, 1)`
maps outbound to pixel `(100, 100)`, but the inbound mapper divides by the
ratio and returns `(1/2, 1/2)` — an error of one half, far beyond any
floating-point tolerance. -/
theorem pixel_roundtrip_counterexample :
    percentageToPixel .ios ⟨101, 101, some 2⟩ (1, 1) = (100, 100) ∧
    pixelToPercentage ⟨101, 101, some 2⟩ (100, 100) = (1 / 2, 1 / 2) ∧
    pixelToPercentage ⟨101, 101, some 2⟩
      (percentageToPixel .ios ⟨101, 101, some 2⟩ (1, 1)) ≠ (1, 1) := by
  have h1 : percentageToPixel .ios ⟨101, 101, some 2⟩ (1, 1) = ((100 : ℚ), (100 : ℚ)) := by
    rw [percentageToPixel, if_neg (fun hcontra => Platform.noConfusion hcontra)]
    rw [getCoordinates]
    norm_num
  have h2 : pixelToPercentage ⟨101, 101, some 2⟩ (100, 100) = ((1 : ℚ) / 2, (1 : ℚ) / 2) := by
    rw [pixelToPercentage]
    norm_num [pixelToDip, effectiveRatio]
  refine ⟨h1, h2, ?_⟩
  rw [h1, h2]
  intro hcontra
  rw [Prod.mk.injEq] at hcontra
  norm_num at hcontra

/-- C3 as amended.  The inbound mapper inverts the outbound mapper exactly
(in exact rational arithmetic, hence within any floating-point tolerance)
whenever the effective device pixel ratio is 1 — i.e. `devicePixelRatio` is
absent, 0 (falsy) or 1 — and the screen dimensions are not 1 (so that the
`width - 1` / `height - 1` denominators are nonzero), on both platforms and
for every position, not just those in the unit square.  With an effective
ratio different from 1 the round trip fails (see the counterexample), because
the inbound path always divides by the ratio while the outbound path either
never multiplies by it (iOS) or multiplies the bounds before the `-1` offset
(Android). -/
theorem pixel_roundtrip_ratio_one (platform : Platform) (s : ScreenBounds) (p : ℚ × ℚ)
    (hr : effectiveRatio s = 1) (hw : s.width ≠ 1) (hh : s.height ≠ 1) :
    pixelToPercentage s (percentageToPixel platform s p) = p := by
  have hw' : s.width - 1 ≠ 0 := sub_ne_zero.mpr hw
  have hh' : s.height - 1 ≠ 0 := sub_ne_zero.mpr hh
  cases platform with
  | ios =>
    have hif : percentageToPixel .ios s p = (p.1 * (s.width - 1), p.2 * (s.height - 1)) := by
      rw [percentageToPixel, if_neg (fun hcontra => Platform.noConfusion hcontra)]
      rfl
    rw [hif, pixelToPercentage]
    rw [Prod.mk.injEq]
    constructor
    · rw [pixelToDip, hr, div_one, mul_div_cancel_right₀ _ hw']
    · rw [pixelToDip, hr, div_one, mul_div_cancel_right₀ _ hh']
  | android =>
    have hif : percentageToPixel .android s p = (p.1 * (s.width - 1), p.2 * (s.height - 1)) := by
      rw [percentageToPixel, if_pos rfl]
      simp only [dipToPixel, hr, mul_one]
      rfl
    rw [hif, pixelToPercentage]
    rw [Prod.mk.injEq]
    constructor
    · rw [pixelToDip, hr, div_one, mul_div_cancel_right₀ _ hw']
    · rw [pixelToDip, hr, div_one, mul_div_cancel_right₀ _ hh']

/-- Witness for the amended C3: a concrete round trip at ratio 1. -/
theorem pixel_roundtrip_ratio_one_witness :
    pixelToPercentage ⟨3, 4, none⟩
      (percentageToPixel .android ⟨3, 4, none⟩ (1 / 2, 1 / 3)) = (1 / 2, 1 / 3) :=
  pixel_roundtrip_ratio_one .android ⟨3, 4, none⟩ (1 / 2, 1 / 3)
    (by norm_num [effectiveRatio]) (by norm_num) (by norm_num)

/-! ## C8: outbound position validation -/

/-- Counterexample for C8: the out-of-range rejection in the mapper throws a
plain `Error` (no `isOperational` flag), not an `OperationalError`, so not
every validation failure raised by the mapper is a distinguishable operational
error. -/
theorem mapActionPosition_nonoperational_counterexample :
    mapActionPosition .ios ⟨100, 100, none⟩ (.num 2) (.num 2) =
      .error ⟨false, "Invalid position: (" ++ toString (2 : ℚ) ++ ", " ++ toString (2 : ℚ) ++
        ") must be within (0, 0) and (1, 1)"⟩ ∧
    (MapError.operational ⟨false, "Invalid position: (" ++ toString (2 : ℚ) ++ ", " ++
      toString (2 : ℚ) ++ ") must be within (0, 0) and (1, 1)"⟩) ≠ true := by
  constructor
  · rw [mapActionPosition]
    norm_num [parsePositionValue, isValidNumber, isPositionWithinBounds, posValueStr,
      PosValue.isStringValue]
  · simp

/-- C8 as amended.  The outbound mapper never clamps: a successful mapping
implies both parsed axes lie in `[0, 1]` and the result is the exact
unclamped conversion; an out-of-range numeric position and a malformed
(non-percentage) string are rejected with errors, and a NaN value is rejected
with an operational error — but the out-of-range and malformed-string
rejections are plain errors (`isOperational` unset), only the NaN rejection is
an `OperationalError`.  Every rejection carries the human-readable message
shown. -/
theorem mapActionPosition_validation :
    (∀ (platform : Platform) (s : ScreenBounds) (px py : PosValue) (c : ℚ × ℚ),
      mapActionPosition platform s px py = .ok c →
      ∃ x y : ℚ, parsePositionValue px = .ok (some x) ∧ parsePositionValue py = .ok (some y) ∧
        0 ≤ x ∧ x ≤ 1 ∧ 0 ≤ y ∧ y ≤ 1 ∧ c = percentageToPixel platform s (x, y)) ∧
    (∀ (platform : Platform) (s : ScreenBounds) (a b : ℚ), a < 0 ∨ 1 < a →
      mapActionPosition platform s (.num a) (.num b) =
        .error ⟨false, "Invalid position: (" ++ toString a ++ ", " ++ toString b ++
          ") must be within (0, 0) and (1, 1)"⟩) ∧
    (∀ (platform : Platform) (s : ScreenBounds) (str : String) (py : PosValue),
      endsWithChar str '%' = false →
      mapActionPosition platform s (.str str) py =
        .error ⟨false, "Invalid position value: " ++ str ++
          ". Must be a number between 0 and 1, or a string ending with %"⟩) ∧
    (∀ (platform : Platform) (s : ScreenBounds) (b : ℚ),
      mapActionPosition platform s .nan (.num b) =
        .error ⟨true, "Invalid position: (" ++ "NaN" ++ ", " ++ toString b ++
          "). Values must be a number or a percentage"⟩) := by
  refine ⟨?_, ?_, ?_, ?_⟩
  · intro platform s px py c hok
    rw [mapActionPosition] at hok
    rcases hx : parsePositionValue px with ex | x
    · simp [hx] at hok
    rcases hy : parsePositionValue py with ey | y
    · simp [hx, hy] at hok
    rcases x with _ | xv
    · simp [hx, hy, isValidNumber] at hok
    rcases y with _ | yv
    · simp [hx, hy, isValidNumber] at hok
    by_cases hb : isPositionWithinBounds (some xv) (some yv) = true
    · refine ⟨xv, yv, rfl, rfl, ?_⟩
      simp [hx, hy, isValidNumber, hb] at hok
      have hbounds := hb
      simp only [isPositionWithinBounds, Bool.not_eq_true', Bool.or_eq_false_iff,
        decide_eq_false_iff_not, not_lt] at hbounds
      exact ⟨by tauto, by tauto, by tauto, by tauto, hok.symm⟩
    · have hb' : isPositionWithinBounds (some xv) (some yv) = false := by
        cases hbb : isPositionWithinBounds (some xv) (some yv)
        · rfl
        · exact absurd hbb hb
      simp [hx, hy, isValidNumber, hb'] at hok
  · intro platform s a b hab
    have hbounds : isPositionWithinBounds (some a) (some b) = false := by
      rcases hab with h | h
      · simp [isPositionWithinBounds, h]
      · simp [isPositionWithinBounds, h]
    rw [mapActionPosition]
    simp [parsePositionValue, isValidNumber, hbounds, posValueStr, PosValue.isStringValue]
  · intro platform s str py h
    rw [mapActionPosition]
    simp [parsePositionValue, h]
  · intro platform s b
    rw [mapActionPosition]
    simp [parsePositionValue, isValidNumber, posValueStr]

/-- Witness for the amended C8: the general parts at concrete inputs — a
successful in-range mapping, the plain-error rejections, and the operational
NaN rejection. -/
theorem mapActionPosition_validation_witness :
    mapActionPosition .ios ⟨100, 100, none⟩ (.num (3 / 2)) (.num 0) =
      .error ⟨false, "Invalid position: (" ++ toString ((3 : ℚ) / 2) ++ ", " ++
        toString (0 : ℚ) ++ ") must be within (0, 0) and (1, 1)"⟩ ∧
    mapActionPosition .android ⟨100, 100, none⟩ (.str "abc") (.num 0) =
      .error ⟨false, "Invalid position value: " ++ "abc" ++
        ". Must be a number between 0 and 1, or a string ending with %"⟩ ∧
    mapActionPosition .ios ⟨100, 100, none⟩ .nan (.num 0) =
      .error ⟨true, "Invalid position: (" ++ "NaN" ++ ", " ++ toString (0 : ℚ) ++
        "). Values must be a number or a percentage"⟩ := by
  have h := mapActionPosition_validation
  exact ⟨h.2.1 .ios ⟨100, 100, none⟩ (3 / 2) 0 (Or.inr (by norm_num)),
    h.2.2.1 .android ⟨100, 100, none⟩ "abc" (.num 0) (by decide),
    h.2.2.2 .ios ⟨100, 100, none⟩ 0⟩


/-! ## C5: gesture builder timing -/

set_option maxHeartbeats 4000000 in
set_option maxRecDepth 10000 in
theorem swipeDefaultGesture_build_eval :
    swipeDefaultGesture.build = .ok swipeDefaultExpected := by
  rw [swipeDefaultGesture, SwipeGesture.build]
  simp only [SwipeGesture.create, SwipeGesture.toPct]
  have htn : Int.toNat 31 = 31 := rfl
  norm_num [swipeDefaultExpected, stepList, buildSegs, segSteps, jsTruthy, List.range_succ,
    max_def, htn]

/-- Counterexample for C5: on the waypoints `[(0,0), (100%,0)]` with default
step duration 16ms and default duration 500ms, the final `t` is
`31·16/1000 = 0.496` seconds — `⌊duration/stepDuration⌋·stepDuration/1000`,
not `duration/1000 = 0.5` as claimed. -/
theorem swipe_build_final_t_counterexample :
    swipeDefaultGesture.build = .ok swipeDefaultExpected ∧
    swipeDefaultExpected.getLast?.map SwipeMove.t = some (62 / 125) ∧
    ((62 : ℚ) / 125) ≠ 500 / 1000 := by
  refine ⟨swipeDefaultGesture_build_eval, ?_, by norm_num⟩
  rw [swipeDefaultExpected, List.range_succ]
  simp only [List.map_append, List.map_cons, List.map_nil, List.getLast?_concat,
    Option.map_some']
  norm_num

/-- C5 as amended.  `build()` on `[(0,0), (100%,0)]` with default 16ms step
duration produces a monotonically non-decreasing `t` sequence, but its final
`t` is `⌊duration/stepDuration⌋ · stepDuration / 1000 = 0.496` seconds rather
than `duration/1000 = 0.5`; and for any waypoint list with at least one
segment, a nonnegative duration argument smaller than
`stepDuration × segmentCount` (with positive step duration) makes `build()`
fail with the error naming the minimum required duration
`segmentCount × stepDuration`. -/
theorem swipe_build_default_properties :
    (swipeDefaultGesture.build = .ok swipeDefaultExpected ∧
      tMonotone swipeDefaultExpected ∧
      swipeDefaultExpected.getLast?.map SwipeMove.t = some (62 / 125)) ∧
    (∀ (g : SwipeGesture) (d : ℚ), g.duration = some d → 0 ≤ d → 0 < g.stepDuration →
      2 ≤ g.moves.length → d < g.stepDuration * ((g.moves.length : ℚ) - 1) →
      g.build = .error (swipeDurationError (g.moves.length - 1) g.stepDuration)) := by
  constructor
  · refine ⟨swipeDefaultGesture_build_eval, ?_, ?_⟩
    · rw [tMonotone, swipeDefaultExpected, List.chain'_map, List.chain'_range_succ]
      intro m hm
      push_cast
      gcongr
      linarith
    · rw [swipeDefaultExpected, List.range_succ]
      simp only [List.map_append, List.map_cons, List.map_nil, List.getLast?_concat,
        Option.map_some']
      norm_num
  · intro g d hdur hd0 hsd hlen hshort
    have hnot : ¬ g.moves.length ≤ 1 := by omega
    have hseg : (0 : ℚ) < ((g.moves.length - 1 : ℕ) : ℚ) := by
      have h1len : 1 ≤ g.moves.length - 1 := by omega
      exact_mod_cast Nat.lt_of_lt_of_le Nat.zero_lt_one h1len
    have h1 : (0 : ℚ) ≤ d / g.stepDuration := div_nonneg hd0 (le_of_lt hsd)
    have h2 : d / g.stepDuration < ((g.moves.length - 1 : ℕ) : ℚ) := by
      rw [div_lt_iff₀ hsd]
      have hcast : ((g.moves.length - 1 : ℕ) : ℚ) = (g.moves.length : ℚ) - 1 := by
        have h1len : 1 ≤ g.moves.length := by omega
        push_cast [h1len]
        ring
      rw [hcast]
      linarith
    have hts0 : 0 ≤ ⌊d / g.stepDuration⌋ := Int.floor_nonneg.mpr h1
    have hts1 : (⌊d / g.stepDuration⌋ : ℚ) < ((g.moves.length - 1 : ℕ) : ℚ) :=
      lt_of_le_of_lt (Int.floor_le _) h2
    have hzero : ⌊((⌊d / g.stepDuration⌋ : ℤ) : ℚ) / ((g.moves.length - 1 : ℕ) : ℚ)⌋ = 0 := by
      rw [Int.floor_eq_zero_iff]
      constructor
      · positivity
      · rw [div_lt_one hseg]
        exact hts1
    rw [SwipeGesture.build, hdur]
    simp only [Option.getD_some]
    rw [if_neg hnot, if_pos hzero]

/-- Witness for the amended C5: a two-waypoint gesture with an explicit 10ms
duration (shorter than one 16ms step) fails with the error naming 16ms. -/
theorem swipe_build_default_properties_witness :
    SwipeGesture.build ⟨[⟨0, 0, none⟩, ⟨1, 0, none⟩], some 10, 16⟩ =
      .error (swipeDurationError 1 16) := by
  have h := swipe_build_default_properties
  exact h.2 ⟨[⟨0, 0, none⟩, ⟨1, 0, none⟩], some 10, 16⟩ 10 rfl (by norm_num) (by norm_num)
    (by norm_num) (by norm_num)

end Appetize
